import Mathlib

/-!
Shallow embedding of the Python sandbox service (`python_sandbox/app.py`):
the execution engine `execute_python_code` and the request adapter
(`execute_code`, `handle_snowflake_format`, `handle_legacy_format`),
together with theorems checking the specification's claims about them.

Wall-clock time is modelled as an abstract `Nat` number of time units
carried by the run outcome; the scheduler's choice (did the worker thread
finish before `thread.join(timeout)` returned?) is modelled by a
`Behavior` function mapping each (code, timeout) pair to the observed
outcome of the worker thread.
-/

/-- JSON values as delivered by `request.get_json()`.  Objects are
association lists; numbers are modelled as integers (non-integer JSON
numbers behave, for every check in the service, like the other
non-integer values and are elided). -/
inductive Json where
  | null
  | bool (b : Bool)
  | num (n : Int)
  | str (s : String)
  | arr (xs : List Json)
  | obj (kvs : List (String × Json))

/-- A Python exception value as the worker's `except Exception as e:`
clause observes it: `tyName` is `type(e).__name__`, `msg` is `str(e)`,
`isSyntaxErr` is `isinstance(e, SyntaxError)`, and `raiseTrace` is the
textual rendering of the traceback attached to the exception object at
the raise site (`e.__traceback__`). -/
structure PyException where
  tyName : String
  msg : String
  isSyntaxErr : Bool
  raiseTrace : String
deriving DecidableEq

/-- What the request-handling thread observes of the worker thread after
`thread.join(timeout)` (app.py lines 123-158), with the elapsed wall
clock `time.time() - start_time` at line 169:
* `timedOut`: `thread.is_alive()` is still true — the code did not finish
  within `timeout` seconds;
* `completed`: the worker ran to the end of its body and set
  `execution_state["completed"] = True`, recording captured stdout,
  captured stderr, and the exception caught by `except Exception` if any;
* `escaped`: the worker thread terminated without setting
  `completed = True` — an exception outside the `Exception` hierarchy
  (such as `SystemExit`) escaped the worker's handler and killed the
  thread before the bookkeeping lines ran. -/
inductive RunOutcome where
  | timedOut (elapsed : Nat)
  | completed (stdout : String) (stderrText : String)
      (exc : Option PyException) (elapsed : Nat)
  | escaped (elapsed : Nat)
deriving DecidableEq

/-- The semantics of running submitted code under a given timeout: which
of the three observable outcomes the request thread sees.  Quantifying
over behaviors quantifies over all possible submitted programs and
scheduler interleavings. -/
abbrev Behavior := String → Int → RunOutcome

/-- The value stored in the result dictionary's `error` slot: `None`, a
plain string, or the structured dict built at app.py lines 142-146. -/
inductive ErrorValue where
  | null
  | text (s : String)
  | structured (ty : String) (message : String) (traceback : String)
deriving DecidableEq

/-- The result dictionary built by `execute_python_code`
(app.py lines 39-44): keys `success`, `output`, `error`,
`execution_time`. -/
structure ExecResult where
  success : Bool
  output : String
  error : ErrorValue
  execution_time : Nat
deriving DecidableEq

/-- The string `traceback.format_exc()` produces at app.py line 145.
The exception was caught on the worker thread, whose `except` block has
already exited by the time the request thread runs line 145; exception
state (`sys.exc_info()`) is thread-local, so no exception is being
handled on the request thread and `format_exc` renders
`(None, None, None)`, which is this fixed string.  The raise-site
traceback held in the exception object is never consulted. -/
def format_exc_on_request_thread : String := "NoneType: None\n"

/-- `execute_python_code(code, timeout)` (app.py lines 28-170), with the
worker-thread semantics abstracted into `b`.  Branches follow lines
131-158: timeout, completion with exception (syntax error as a prefixed
string, any other as a structured dict), completion without exception
(non-empty captured stderr forces failure), and the fallback branch for
a thread that died without recording completion.  `output` is set only
in the completion branch (line 155) and otherwise keeps its initial
empty-string value. -/
def execute_python_code (b : Behavior) (code : String)
    (timeout : Int := 90) : ExecResult :=
  match b code timeout with
  | .timedOut elapsed =>
      { success := false, output := "",
        error := .text ("Code execution timed out after "
          ++ toString timeout ++ " seconds"),
        execution_time := elapsed }
  | .completed out errOut exc elapsed =>
      match exc with
      | some e =>
          if e.isSyntaxErr then
            { success := false, output := out,
              error := .text ("Syntax Error: " ++ e.msg),
              execution_time := elapsed }
          else
            { success := false, output := out,
              error := .structured e.tyName e.msg
                format_exc_on_request_thread,
              execution_time := elapsed }
      | none =>
          if errOut ≠ "" then
            { success := false, output := out, error := .text errOut,
              execution_time := elapsed }
          else
            { success := true, output := out, error := .null,
              execution_time := elapsed }
  | .escaped elapsed =>
      { success := false, output := "",
        error := .text "Execution completed with unknown state",
        execution_time := elapsed }

/-- One call made to the execution engine: the code string and the
timeout it was invoked with. -/
abbrev EngineCall := String × Int

/-- An HTTP response: status code and JSON body. -/
structure HttpResponse where
  status : Nat
  body : Json

/-- The `jsonify({"success": False, "error": msg}), 400` pattern used by
the adapter for every validation failure. -/
def resp400 (msg : String) : HttpResponse :=
  ⟨400, .obj [("success", .bool false), ("error", .str msg)]⟩

/-- The `jsonify({"success": False, "error": ...}), 500` pattern used by
the adapter's `except` clauses.  The interpolated Python exception text
is summarized; no claim inspects a 500 body. -/
def resp500 (msg : String) : HttpResponse :=
  ⟨500, .obj [("success", .bool false), ("error", .str msg)]⟩

/-- Serialization of an `error` slot back through `jsonify`. -/
def ErrorValue.toJson : ErrorValue → Json
  | .null => .null
  | .text s => .str s
  | .structured ty message traceback =>
      .obj [("type", .str ty), ("message", .str message),
        ("traceback", .str traceback)]

/-- Serialization of a result dictionary back through `jsonify`. -/
def ExecResult.toJson (r : ExecResult) : Json :=
  .obj [("success", .bool r.success), ("output", .str r.output),
    ("error", r.error.toJson),
    ("execution_time", .num (Int.ofNat r.execution_time))]

/-- The pre-built per-row error result of app.py lines 260-265, used for
a batch row whose code position is not a string. -/
def invalidCodeResult : ExecResult :=
  { success := false, output := "", error := .text "Code must be a string",
    execution_time := 0 }

/-- Outcome of the row loop of `handle_snowflake_format`
(app.py lines 248-273): either an early `return` of the 400 response
(row failing the shape check), or the accumulated `results` list.  In
both cases the engine calls already performed by earlier iterations are
recorded in order. -/
inductive BatchOutcome where
  | rejected (trace : List EngineCall)
  | done (results : List (Json × ExecResult)) (trace : List EngineCall)

/-- The engine calls a batch outcome performed. -/
def BatchOutcome.trace : BatchOutcome → List EngineCall
  | .rejected tr => tr
  | .done _ tr => tr

/-- The `for row in rows:` loop of `handle_snowflake_format`
(app.py lines 248-273).  A row that is not a list of length at least two
aborts the whole loop with the 400 response; a row whose code position
is not a string contributes `invalidCodeResult` without an engine call;
every other row is executed with the loop's fixed `timeout`. -/
def processRows (b : Behavior) (timeout : Int) :
    List Json → BatchOutcome
  | [] => .done [] []
  | row :: rest =>
      match row with
      | .arr (rowIndex :: codeJson :: _) =>
          match codeJson with
          | .str code =>
              let result := execute_python_code b code timeout
              (match processRows b timeout rest with
               | .rejected tr => .rejected ((code, timeout) :: tr)
               | .done rs tr =>
                   .done ((rowIndex, result) :: rs) ((code, timeout) :: tr))
          | _ =>
              (match processRows b timeout rest with
               | .rejected tr => .rejected tr
               | .done rs tr => .done ((rowIndex, invalidCodeResult) :: rs) tr)
      | _ => .rejected []

/-- Serialization of one `[row_index, result]` entry of the batch
response. -/
def encodePair (p : Json × ExecResult) : Json :=
  .arr [p.1, p.2.toJson]

/-- `handle_snowflake_format(data)` (app.py lines 234-282), additionally
returning the ordered list of engine calls it performed.  `data` is the
already-parsed request body; a non-object body makes `data.get` raise,
landing in the handler's `except` clause (500).  The loop's timeout is
the fixed 600 of line 247. -/
def handle_snowflake_format (b : Behavior) (data : Json) :
    HttpResponse × List EngineCall :=
  match data with
  | .obj kvs =>
      match (List.lookup "data" kvs).getD (.arr []) with
      | .arr rs =>
          match processRows b 600 rs with
          | .rejected tr =>
              (resp400 "Each row must be an array with at least [row_index, code]", tr)
          | .done results tr =>
              (⟨200, .obj [("data", .arr (results.map encodePair))]⟩, tr)
      | _ => (resp400 "\x27data\x27 must be an array", [])
  | _ => (resp500 "Error processing Snowflake format: \x27get\x27", [])

/-- Python's `isinstance(x, int)` view of a JSON value: JSON integers
are Python ints, and Python booleans are instances of `int`
(`True == 1`, `False == 0`), so they also pass the check and coerce.
Every other value (null, string, array, object, non-integer number) is
not an int. -/
def pyIntValue : Json → Option Int
  | .num n => some n
  | .bool true => some 1
  | .bool false => some 0
  | _ => none

/-- `handle_legacy_format(data)` (app.py lines 284-314), additionally
returning the list of engine calls it performed.  `data['code']` on a
missing key or a non-object body raises, landing in the handler's
`except` clause (500).  Validation order follows the source: fetch code,
fetch timeout with default 30, reject non-string code, reject a timeout
that is not an int in [1, 300], then execute. -/
def handle_legacy_format (b : Behavior) (data : Json) :
    HttpResponse × List EngineCall :=
  match data with
  | .obj kvs =>
      match List.lookup "code" kvs with
      | none => (resp500 "Error processing legacy format: \x27code\x27", [])
      | some codeJson =>
          let timeoutJson := (List.lookup "timeout" kvs).getD (.num 30)
          match codeJson with
          | .str code =>
              match pyIntValue timeoutJson with
              | some t =>
                  if t ≤ 0 ∨ 300 < t then
                    (resp400 "\x27timeout\x27 must be an integer between 1 and 300 seconds", [])
                  else
                    (⟨200, (execute_python_code b code t).toJson⟩, [(code, t)])
              | none =>
                  (resp400 "\x27timeout\x27 must be an integer between 1 and 300 seconds", [])
          | _ => (resp400 "\x27code\x27 parameter must be a string", [])
  | _ => (resp500 "Error processing legacy format: type error", [])

/-- Python truthiness of a parsed JSON body, for the `if not data:`
check at app.py line 209. -/
def pyTruthy : Json → Bool
  | .null => false
  | .bool b => b
  | .num n => n != 0
  | .str s => s ≠ ""
  | .arr xs => !xs.isEmpty
  | .obj kvs => !kvs.isEmpty

/-- Python's `key in data` on a parsed JSON body: key membership for an
object, element equality for a list, substring for a string, and a
`TypeError` (`none`) for the remaining types. -/
def jsonContainsKey (j : Json) (k : String) : Option Bool :=
  match j with
  | .obj kvs => some (kvs.any (fun p => p.1 == k))
  | .arr xs =>
      some (xs.any (fun x => match x with | .str s => s == k | _ => false))
  | .str s => some (decide (1 < (s.splitOn k).length))
  | _ => none

/-- The `/execute` route handler `execute_code` (app.py lines 177-232),
dispatching on the parsed body: missing or falsy body is a 400; a body
with a top-level `data` key goes to the Snowflake batch handler; else a
body with a `code` key goes to the legacy handler; else 400.  A body on
which `in` raises `TypeError` lands in the route's `except` clause
(500). -/
def execute_code (b : Behavior) (body : Option Json) :
    HttpResponse × List EngineCall :=
  match body with
  | none => (resp400 "Missing request body", [])
  | some data =>
      if pyTruthy data then
        match jsonContainsKey data "data" with
        | some true => handle_snowflake_format b data
        | some false =>
            match jsonContainsKey data "code" with
            | some true => handle_legacy_format b data
            | some false =>
                (resp400 "Invalid request format. Expected \x27data\x27 array (Snowflake format) or \x27code\x27 string (legacy format)", [])
            | none => (resp500 "Internal server error: type error", [])
        | none => (resp500 "Internal server error: type error", [])
      else (resp400 "Missing request body", [])

/-! Specification-side views of one batch row, used to state the
adapter theorems. -/

/-- The shape check of app.py line 249: a well-formed row is a list with
at least two positions, exposed as its `(row_index, code)` positions. -/
def rowShape : Json → Option (Json × Json)
  | .arr (a :: c :: _) => some (a, c)
  | _ => none

/-- Whether a row passes the structural shape check. -/
def wfRow (r : Json) : Bool := (rowShape r).isSome

/-- The `(row_index, result)` entry a well-formed row contributes to the
batch results under behavior `b` and timeout `t`. -/
def rowResult (b : Behavior) (t : Int) (r : Json) : Json × ExecResult :=
  match r with
  | .arr (i :: .str c :: _) => (i, execute_python_code b c t)
  | .arr (i :: _ :: _) => (i, invalidCodeResult)
  | _ => (.null, invalidCodeResult)

/-- The engine call a row triggers, if any: only rows whose code
position is a string reach the engine. -/
def rowCall (t : Int) (r : Json) : Option EngineCall :=
  match r with
  | .arr (_ :: .str c :: _) => some (c, t)
  | _ => none

/-! Structural lemmas about the batch row loop. -/

/-- On a list of rows that all pass the shape check, the loop runs to
completion: the results are the per-row results in input order and the
trace is exactly the calls of the string-coded rows in input order. -/
theorem processRows_wf (b : Behavior) (t : Int) :
    ∀ rows : List Json, (∀ r ∈ rows, wfRow r = true) →
      processRows b t rows =
        .done (rows.map (rowResult b t)) (rows.filterMap (rowCall t))
  | [], _ => rfl
  | row :: rest, h => by
      have hrest := processRows_wf b t rest
        (fun r hr => h r (List.mem_cons_of_mem _ hr))
      have hrow : wfRow row = true := h row (List.mem_cons_self _ _)
      cases row with
      | arr xs =>
          match xs with
          | [] => simp [wfRow, rowShape] at hrow
          | [a] => simp [wfRow, rowShape] at hrow
          | a :: c :: xs' =>
              cases c <;>
                simp [processRows, hrest, rowResult, rowCall]
      | null => simp [wfRow, rowShape] at hrow
      | bool v => simp [wfRow, rowShape] at hrow
      | num v => simp [wfRow, rowShape] at hrow
      | str v => simp [wfRow, rowShape] at hrow
      | obj v => simp [wfRow, rowShape] at hrow

/-- When the row list is a block of well-formed rows followed by a row
failing the shape check, the loop aborts at that row: the outcome is the
rejection, and the calls performed are exactly those of the string-coded
rows of the well-formed block — nothing at or past the malformed row is
executed. -/
theorem processRows_break (b : Behavior) (t : Int) :
    ∀ (good : List Json) (bad : Json) (rest : List Json),
      (∀ r ∈ good, wfRow r = true) → wfRow bad = false →
      processRows b t (good ++ bad :: rest) =
        .rejected (good.filterMap (rowCall t))
  | [], bad, rest, _, hb => by
      cases bad with
      | arr xs =>
          match xs with
          | [] => rfl
          | [a] => rfl
          | a :: c :: xs' => simp [wfRow, rowShape] at hb
      | null => rfl
      | bool v => rfl
      | num v => rfl
      | str v => rfl
      | obj v => rfl
  | g :: gs, bad, rest, h, hb => by
      have hrec := processRows_break b t gs bad rest
        (fun r hr => h r (List.mem_cons_of_mem _ hr)) hb
      have hg : wfRow g = true := h g (List.mem_cons_self _ _)
      cases g with
      | arr xs =>
          match xs with
          | [] => simp [wfRow, rowShape] at hg
          | [a] => simp [wfRow, rowShape] at hg
          | a :: c :: xs' =>
              cases c <;>
                simp [processRows, hrec, rowCall]
      | null => simp [wfRow, rowShape] at hg
      | bool v => simp [wfRow, rowShape] at hg
      | num v => simp [wfRow, rowShape] at hg
      | str v => simp [wfRow, rowShape] at hg
      | obj v => simp [wfRow, rowShape] at hg

/-- Every engine call the loop performs uses the loop's single timeout
value. -/
theorem processRows_trace_timeout (b : Behavior) (t : Int) :
    ∀ rows : List Json, ∀ call ∈ (processRows b t rows).trace,
      call.2 = t
  | [], call, hc => by simp [processRows, BatchOutcome.trace] at hc
  | row :: rest, call, hc => by
      have hrec := processRows_trace_timeout b t rest
      cases row with
      | arr xs =>
          match xs with
          | [] => simp [processRows, BatchOutcome.trace] at hc
          | [a] => simp [processRows, BatchOutcome.trace] at hc
          | a :: c :: xs' =>
              cases c with
              | str s =>
                  revert hc
                  cases hpr : processRows b t rest with
                  | rejected tr =>
                      intro hc
                      simp [processRows, hpr, BatchOutcome.trace] at hc
                      rcases hc with hc | hc
                      · simp [hc]
                      · have := hrec call
                        rw [hpr] at this
                        exact this (by simpa [BatchOutcome.trace] using hc)
                  | done rs tr =>
                      intro hc
                      simp [processRows, hpr, BatchOutcome.trace] at hc
                      rcases hc with hc | hc
                      · simp [hc]
                      · have := hrec call
                        rw [hpr] at this
                        exact this (by simpa [BatchOutcome.trace] using hc)
              | null =>
                  revert hc
                  cases hpr : processRows b t rest with
                  | rejected tr =>
                      intro hc
                      simp [processRows, hpr, BatchOutcome.trace] at hc
                      have := hrec call
                      rw [hpr] at this
                      exact this (by simpa [BatchOutcome.trace] using hc)
                  | done rs tr =>
                      intro hc
                      simp [processRows, hpr, BatchOutcome.trace] at hc
                      have := hrec call
                      rw [hpr] at this
                      exact this (by simpa [BatchOutcome.trace] using hc)
              | bool v =>
                  revert hc
                  cases hpr : processRows b t rest with
                  | rejected tr =>
                      intro hc
                      simp [processRows, hpr, BatchOutcome.trace] at hc
                      have := hrec call
                      rw [hpr] at this
                      exact this (by simpa [BatchOutcome.trace] using hc)
                  | done rs tr =>
                      intro hc
                      simp [processRows, hpr, BatchOutcome.trace] at hc
                      have := hrec call
                      rw [hpr] at this
                      exact this (by simpa [BatchOutcome.trace] using hc)
              | num v =>
                  revert hc
                  cases hpr : processRows b t rest with
                  | rejected tr =>
                      intro hc
                      simp [processRows, hpr, BatchOutcome.trace] at hc
                      have := hrec call
                      rw [hpr] at this
                      exact this (by simpa [BatchOutcome.trace] using hc)
                  | done rs tr =>
                      intro hc
                      simp [processRows, hpr, BatchOutcome.trace] at hc
                      have := hrec call
                      rw [hpr] at this
                      exact this (by simpa [BatchOutcome.trace] using hc)
              | arr v =>
                  revert hc
                  cases hpr : processRows b t rest with
                  | rejected tr =>
                      intro hc
                      simp [processRows, hpr, BatchOutcome.trace] at hc
                      have := hrec call
                      rw [hpr] at this
                      exact this (by simpa [BatchOutcome.trace] using hc)
                  | done rs tr =>
                      intro hc
                      simp [processRows, hpr, BatchOutcome.trace] at hc
                      have := hrec call
                      rw [hpr] at this
                      exact this (by simpa [BatchOutcome.trace] using hc)
              | obj v =>
                  revert hc
                  cases hpr : processRows b t rest with
                  | rejected tr =>
                      intro hc
                      simp [processRows, hpr, BatchOutcome.trace] at hc
                      have := hrec call
                      rw [hpr] at this
                      exact this (by simpa [BatchOutcome.trace] using hc)
                  | done rs tr =>
                      intro hc
                      simp [processRows, hpr, BatchOutcome.trace] at hc
                      have := hrec call
                      rw [hpr] at this
                      exact this (by simpa [BatchOutcome.trace] using hc)
      | null => simp [processRows, BatchOutcome.trace] at hc
      | bool v => simp [processRows, BatchOutcome.trace] at hc
      | num v => simp [processRows, BatchOutcome.trace] at hc
      | str v => simp [processRows, BatchOutcome.trace] at hc
      | obj v => simp [processRows, BatchOutcome.trace] at hc

/-! Claim theorems about the execution engine. -/

/-- Claim C2: for every engine call, `success = true` implies
`error = null`; `error = null` implies the captured stderr stream was
empty; and a run that completes without raising but with non-empty
captured stderr yields `success = false` with `error` equal to the
captured stderr text. -/
theorem claim2_stderr_invariant (b : Behavior) (code : String) (t : Int) :
    ((execute_python_code b code t).success = true →
      (execute_python_code b code t).error = .null) ∧
    ((execute_python_code b code t).error = .null →
      ∀ out errOut exc el, b code t = .completed out errOut exc el →
        errOut = "") ∧
    (∀ out errOut el, b code t = .completed out errOut none el →
      errOut ≠ "" →
      (execute_python_code b code t).success = false ∧
      (execute_python_code b code t).error = .text errOut) := by
  refine ⟨?_, ?_, ?_⟩
  · intro h
    cases hb : b code t with
    | timedOut el => simp [execute_python_code, hb] at h
    | completed out errOut exc el =>
        cases exc with
        | some e =>
            by_cases hse : e.isSyntaxErr <;>
              simp [execute_python_code, hb, hse] at h
        | none =>
            by_cases herr : errOut = "" <;>
              simp [execute_python_code, hb, herr] at h ⊢
    | escaped el => simp [execute_python_code, hb] at h
  · intro h out errOut exc el hb
    cases exc with
    | some e =>
        by_cases hse : e.isSyntaxErr <;>
          simp [execute_python_code, hb, hse] at h
    | none =>
        by_cases herr : errOut = ""
        · exact herr
        · simp [execute_python_code, hb, herr] at h
  · intro out errOut el hb herr
    simp [execute_python_code, hb, herr]

/-- Witness for C2 at a concrete run producing stderr text and no
exception. -/
def warnBehavior : Behavior := fun _ _ => .completed "out" "warning text" none 2

/-- C2 applied to a concrete completed run with non-empty stderr. -/
theorem claim2_stderr_invariant_witness :
    (execute_python_code warnBehavior "w" 30).success = false ∧
    (execute_python_code warnBehavior "w" 30).error = .text "warning text" :=
  (claim2_stderr_invariant warnBehavior "w" 30).2.2 "out" "warning text" 2
    rfl (by decide)

/-- A worker run raising an ordinary exception: `1/0` raises
`ZeroDivisionError`, with its raise-site traceback attached to the
exception object. -/
def zeroDivExc : PyException :=
  { tyName := "ZeroDivisionError", msg := "division by zero",
    isSyntaxErr := false,
    raiseTrace := "Traceback (most recent call last):\n  File \x22<string>\x22, line 1, in <module>\nZeroDivisionError: division by zero\n" }

/-- Behavior of submitting `1/0`: completes at once with the exception
caught and nothing printed. -/
def zeroDivBehavior : Behavior := fun _ _ => .completed "" "" (some zeroDivExc) 0

/-- Claim C3: the structured error object carries the exception's type
name and message, but its traceback slot is the fixed
no-active-exception rendering produced by running `format_exc` on the
request thread — not the stack trace captured at the raise site. -/
theorem claim3_traceback_is_not_raise_site :
    execute_python_code zeroDivBehavior "1/0" 30 =
      { success := false, output := "",
        error := .structured "ZeroDivisionError" "division by zero"
          format_exc_on_request_thread,
        execution_time := 0 } ∧
    format_exc_on_request_thread ≠ zeroDivExc.raiseTrace :=
  ⟨rfl, by decide⟩

/-- Worker semantics of code that never finishes: the join times out. -/
def loopForeverBehavior : Behavior := fun _ _ => .timedOut 30

/-- Claim C4 as stated is false: on timeout the error string is
`Code execution timed out after 30 seconds`, not
`execution timed out after 30 seconds`. -/
theorem claim4_counterexample :
    (execute_python_code loopForeverBehavior "while True: pass" 30).error =
      ErrorValue.text "Code execution timed out after 30 seconds" ∧
    (execute_python_code loopForeverBehavior "while True: pass" 30).error ≠
      ErrorValue.text "execution timed out after 30 seconds" := by
  constructor
  · rfl
  · decide

/-- Claim C4 amended: on timeout the result is
`success = false`, empty output, error string
`Code execution timed out after <timeout> seconds`, and the elapsed
time. -/
theorem claim4_amended_timeout_result (b : Behavior) (code : String)
    (t : Int) (el : Nat) (h : b code t = .timedOut el) :
    execute_python_code b code t =
      { success := false, output := "",
        error := .text ("Code execution timed out after "
          ++ toString t ++ " seconds"),
        execution_time := el } := by
  simp [execute_python_code, h]

/-- C4 amended, applied at a concrete timed-out run. -/
theorem claim4_amended_timeout_result_witness :
    execute_python_code loopForeverBehavior "while True: pass" 30 =
      { success := false, output := "",
        error := .text "Code execution timed out after 30 seconds",
        execution_time := 30 } :=
  claim4_amended_timeout_result loopForeverBehavior "while True: pass" 30 30 rfl

/-- Worker semantics of code raising `SystemExit`: the thread dies
without recording completion. -/
def sysExitBehavior : Behavior := fun _ _ => .escaped 1

/-- Claim C10: when the worker thread terminates without recording
completion (an exception outside the ordinary `Exception` hierarchy,
such as `SystemExit`), the engine returns `success = false` with the
plain string error `Execution completed with unknown state`. -/
theorem claim10_unknown_state (b : Behavior) (code : String) (t : Int)
    (el : Nat) (h : b code t = .escaped el) :
    execute_python_code b code t =
      { success := false, output := "",
        error := .text "Execution completed with unknown state",
        execution_time := el } := by
  simp [execute_python_code, h]

/-- C10 applied at a concrete escaped run. -/
theorem claim10_unknown_state_witness :
    execute_python_code sysExitBehavior "raise SystemExit" 30 =
      { success := false, output := "",
        error := .text "Execution completed with unknown state",
        execution_time := 1 } :=
  claim10_unknown_state sysExitBehavior "raise SystemExit" 30 1 rfl

/-! Claim theorems about the batch (Snowflake) adapter. -/

/-- Worker semantics for simple printing code: completes at once with
stdout captured and empty stderr. -/
def echoBehavior : Behavior := fun _ _ => .completed "1\n" "" none 0

/-- A batch body whose second row fails the shape check while the first
row is well-formed. -/
def claim1Body : Json :=
  .obj [("data", .arr [.arr [.num 0, .str "print(1)"], .num 7])]

/-- Claim C1 as stated is false: with a well-formed row followed by a
malformed one, the request is rejected with 400, yet the engine was
invoked for the preceding well-formed row. -/
theorem claim1_counterexample :
    (handle_snowflake_format echoBehavior claim1Body).1.status = 400 ∧
    (handle_snowflake_format echoBehavior claim1Body).2 = [("print(1)", 600)] ∧
    (handle_snowflake_format echoBehavior claim1Body).2 ≠ ([] : List EngineCall) := by
  refine ⟨rfl, rfl, by decide⟩

/-- Claim C1 amended: a batch containing a row that fails the shape
check is rejected whole with HTTP 400, and no row at or after the first
malformed row reaches the engine; but the string-coded well-formed rows
preceding it ARE executed (their results discarded). -/
theorem claim1_amended_reject_after_prefix (b : Behavior)
    (good : List Json) (bad : Json) (rest : List Json)
    (hg : ∀ r ∈ good, wfRow r = true) (hb : wfRow bad = false) :
    (handle_snowflake_format b
      (.obj [("data", .arr (good ++ bad :: rest))])).1.status = 400 ∧
    (handle_snowflake_format b
      (.obj [("data", .arr (good ++ bad :: rest))])).2 =
      good.filterMap (rowCall 600) := by
  have h := processRows_break b 600 good bad rest hg hb
  constructor <;> simp [handle_snowflake_format, h, resp400]

/-- C1 amended, at a concrete batch with one well-formed row before the
malformed one. -/
theorem claim1_amended_reject_after_prefix_witness :
    (handle_snowflake_format echoBehavior claim1Body).1.status = 400 ∧
    (handle_snowflake_format echoBehavior claim1Body).2 =
      [Json.arr [.num 0, .str "print(1)"]].filterMap (rowCall 600) :=
  claim1_amended_reject_after_prefix echoBehavior
    [Json.arr [.num 0, .str "print(1)"]] (.num 7) []
    (by intro r hr; rw [List.mem_singleton] at hr; subst hr; rfl) rfl

/-- A structurally valid batch whose single row has a non-string code
position. -/
def claim6Body : Json := .obj [("data", .arr [.arr [.num 0, .num 42]])]

/-- Claim C6 as stated is false in its quoted error text: the pre-built
per-row result's error string is `Code must be a string` (capital C),
not `code must be a string`.  The rest of the claimed behavior holds at
this input: HTTP 200, the pre-built result at the row's position, and no
engine call. -/
theorem claim6_counterexample :
    handle_snowflake_format echoBehavior claim6Body =
      (⟨200, .obj [("data", .arr [.arr [.num 0, invalidCodeResult.toJson]])]⟩,
        []) ∧
    invalidCodeResult.error = .text "Code must be a string" ∧
    invalidCodeResult.error ≠ .text "code must be a string" :=
  ⟨rfl, rfl, by decide⟩

/-- Claim C6 amended (error text capitalized): in a structurally valid
batch, a row whose code position is not a string contributes the
pre-built `invalidCodeResult` (`success = false`, empty output, error
`Code must be a string`, zero execution time) at its own position
without an engine call, while the engine calls performed are exactly
those of the string-coded rows. -/
theorem claim6_amended_nonstring_row (b : Behavior) (rows : List Json)
    (hwf : ∀ r ∈ rows, wfRow r = true)
    (i : Nat) (hi : i < rows.length) (idx cj : Json) (extra : List Json)
    (hrow : rows.get ⟨i, hi⟩ = .arr (idx :: cj :: extra))
    (hns : ∀ s, cj ≠ .str s) :
    (handle_snowflake_format b (.obj [("data", .arr rows)])).1 =
      ⟨200, .obj [("data",
        .arr ((rows.map (rowResult b 600)).map encodePair))]⟩ ∧
    (handle_snowflake_format b (.obj [("data", .arr rows)])).2 =
      rows.filterMap (rowCall 600) ∧
    (rows.map (rowResult b 600)).get ⟨i, by simpa using hi⟩ =
      (idx, invalidCodeResult) ∧
    rowCall 600 (rows.get ⟨i, hi⟩) = none := by
  have h := processRows_wf b 600 rows hwf
  have hres : rowResult b 600 (rows.get ⟨i, hi⟩) = (idx, invalidCodeResult) := by
    rw [hrow]
    cases cj with
    | str s => exact absurd rfl (hns s)
    | null => rfl
    | bool v => rfl
    | num v => rfl
    | arr v => rfl
    | obj v => rfl
  have hcall : rowCall 600 (rows.get ⟨i, hi⟩) = none := by
    rw [hrow]
    cases cj with
    | str s => exact absurd rfl (hns s)
    | null => rfl
    | bool v => rfl
    | num v => rfl
    | arr v => rfl
    | obj v => rfl
  refine ⟨?_, ?_, ?_, hcall⟩
  · simp [handle_snowflake_format, h]
  · simp [handle_snowflake_format, h]
  · have hres2 := hres
    rw [List.get_eq_getElem] at hres2
    simp only [List.get_eq_getElem, List.getElem_map]
    exact hres2

/-- C6 amended, at a concrete two-row batch whose second row carries a
non-string code while the first is executed normally. -/
theorem claim6_amended_nonstring_row_witness :
    (handle_snowflake_format echoBehavior
      (.obj [("data", .arr [.arr [.num 0, .str "print(1)"],
        .arr [.num 1, .num 42]])])).1.status = 200 ∧
    ([Json.arr [.num 0, .str "print(1)"],
      Json.arr [.num 1, .num 42]].map (rowResult echoBehavior 600)).get
        ⟨1, by decide⟩ = (.num 1, invalidCodeResult) := by
  have h := claim6_amended_nonstring_row echoBehavior
    [Json.arr [.num 0, .str "print(1)"], Json.arr [.num 1, .num 42]]
    (by intro r hr
        simp only [List.mem_cons, List.not_mem_nil, or_false] at hr
        rcases hr with rfl | rfl <;> rfl)
    1 (by decide) (.num 1) (.num 42) []
    rfl
    (by intro s hs; cases hs)
  exact ⟨by rw [h.1], h.2.2.1⟩

/-- Claim C7: for every structurally valid batch, the response is HTTP
200, its data sequence is the per-row results in the same order (hence
the same length) as the input rows, and each entry's first position is
the caller-supplied index of the corresponding input row, verbatim. -/
theorem claim7_order_and_indices (b : Behavior) (rows : List Json)
    (hwf : ∀ r ∈ rows, wfRow r = true) :
    (handle_snowflake_format b (.obj [("data", .arr rows)])).1.status = 200 ∧
    (handle_snowflake_format b (.obj [("data", .arr rows)])).1.body =
      .obj [("data", .arr ((rows.map (rowResult b 600)).map encodePair))] ∧
    ((rows.map (rowResult b 600)).map encodePair).length = rows.length ∧
    (∀ (i : Nat) (hi : i < rows.length) (idx cj : Json) (extra : List Json),
      rows.get ⟨i, hi⟩ = .arr (idx :: cj :: extra) →
      ((rows.map (rowResult b 600)).get ⟨i, by simpa using hi⟩).1 = idx) := by
  have h := processRows_wf b 600 rows hwf
  refine ⟨?_, ?_, by simp, ?_⟩
  · simp [handle_snowflake_format, h]
  · simp [handle_snowflake_format, h]
  · intro i hi idx cj extra hrow
    have hres : (rowResult b 600 (rows.get ⟨i, hi⟩)).1 = idx := by
      rw [hrow]
      cases cj with
      | str s => rfl
      | null => rfl
      | bool v => rfl
      | num v => rfl
      | arr v => rfl
      | obj v => rfl
    rw [List.get_eq_getElem] at hres
    simp only [List.get_eq_getElem, List.getElem_map]
    exact hres

/-- C7 at a concrete batch with a duplicated, non-sequential index:
both rows keep their caller-supplied index `5`. -/
theorem claim7_order_and_indices_witness :
    (handle_snowflake_format echoBehavior
      (.obj [("data", .arr [.arr [.num 5, .str "print(1)"],
        .arr [.num 5, .str "print(2)"]])])).1.status = 200 ∧
    (([Json.arr [.num 5, .str "print(1)"],
       Json.arr [.num 5, .str "print(2)"]].map
        (rowResult echoBehavior 600)).get ⟨1, by decide⟩).1 = .num 5 := by
  have h := claim7_order_and_indices echoBehavior
    [Json.arr [.num 5, .str "print(1)"], Json.arr [.num 5, .str "print(2)"]]
    (by intro r hr
        simp only [List.mem_cons, List.not_mem_nil, or_false] at hr
        rcases hr with rfl | rfl <;> rfl)
  exact ⟨h.1, h.2.2.2 1 (by decide) (.num 5) (.str "print(2)") [] rfl⟩

/-- Claim C8: every engine call a batch request triggers uses the fixed
600-second timeout, whatever the request body contains. -/
theorem claim8_fixed_batch_timeout (b : Behavior) (data : Json) :
    ∀ call ∈ (handle_snowflake_format b data).2, call.2 = 600 := by
  intro call hc
  cases data with
  | null => simp [handle_snowflake_format] at hc
  | bool v => simp [handle_snowflake_format] at hc
  | num v => simp [handle_snowflake_format] at hc
  | str v => simp [handle_snowflake_format] at hc
  | arr v => simp [handle_snowflake_format] at hc
  | obj kvs =>
      have htr := processRows_trace_timeout b 600
      rcases hrows : (List.lookup "data" kvs).getD (.arr []) with
        _ | v | v | v | rs | v <;>
        simp [handle_snowflake_format, hrows] at hc
      cases hpr : processRows b 600 rs with
      | rejected tr =>
          have := htr rs call
          rw [hpr] at this
          rw [hpr] at hc
          exact this (by simpa [BatchOutcome.trace] using hc)
      | done rsl tr =>
          have := htr rs call
          rw [hpr] at this
          rw [hpr] at hc
          exact this (by simpa [BatchOutcome.trace] using hc)

/-- C8 at a concrete one-row batch: the single call performed carries
timeout 600. -/
theorem claim8_fixed_batch_timeout_witness :
    ("print(1)", (600 : Int)) ∈
      (handle_snowflake_format echoBehavior
        (.obj [("data", .arr [.arr [.num 0, .str "print(1)"]])])).2 ∧
    (("print(1)", (600 : Int)) : EngineCall).2 = 600 :=
  ⟨by decide,
    claim8_fixed_batch_timeout echoBehavior
      (.obj [("data", .arr [.arr [.num 0, .str "print(1)"]])])
      ("print(1)", (600 : Int)) (by decide)⟩

/-! Claim theorems about the single-mode (legacy) adapter and the
dispatcher. -/

/-- Claim C5: in single mode with a string code field, a supplied
timeout that is not a Python int in [1, 300] yields HTTP 400 with no
engine call; a supplied timeout that is a Python int in [1, 300] yields
exactly one engine call with that value; an omitted timeout yields
exactly one engine call with the default 30.  (Python booleans are
instances of `int` and coerce: `True` behaves as 1, `False` as 0.) -/
theorem claim5_legacy_timeout_validation (b : Behavior)
    (kvs : List (String × Json)) (code : String)
    (hcode : List.lookup "code" kvs = some (.str code)) :
    (∀ tj, List.lookup "timeout" kvs = some tj →
      (¬ ∃ n, pyIntValue tj = some n ∧ 1 ≤ n ∧ n ≤ 300) →
      (handle_legacy_format b (.obj kvs)).1.status = 400 ∧
      (handle_legacy_format b (.obj kvs)).2 = []) ∧
    (∀ tj n, List.lookup "timeout" kvs = some tj → pyIntValue tj = some n →
      1 ≤ n → n ≤ 300 →
      (handle_legacy_format b (.obj kvs)).1.status = 200 ∧
      (handle_legacy_format b (.obj kvs)).2 = [(code, n)]) ∧
    (List.lookup "timeout" kvs = none →
      (handle_legacy_format b (.obj kvs)).1.status = 200 ∧
      (handle_legacy_format b (.obj kvs)).2 = [(code, 30)]) := by
  refine ⟨?_, ?_, ?_⟩
  · intro tj htj hbad
    cases hint : pyIntValue tj with
    | none =>
        constructor <;> simp [handle_legacy_format, hcode, htj, hint, resp400]
    | some n =>
        have hout : n ≤ 0 ∨ 300 < n := by
          by_contra hcontra
          push_neg at hcontra
          exact hbad ⟨n, hint, by omega, hcontra.2⟩
        constructor <;>
          simp [handle_legacy_format, hcode, htj, hint, hout, resp400]
  · intro tj n htj hint h1 h300
    have hin : ¬ (n ≤ 0 ∨ 300 < n) := by omega
    constructor <;>
      simp [handle_legacy_format, hcode, htj, hint, hin, resp400]
  · intro htj
    constructor <;> simp [handle_legacy_format, hcode, htj, pyIntValue]

/-- C5 at a concrete request with an out-of-range timeout (400, no
engine call). -/
theorem claim5_legacy_timeout_validation_witness :
    (handle_legacy_format echoBehavior
      (.obj [("code", .str "print(1)"), ("timeout", .num 400)])).1.status = 400 ∧
    (handle_legacy_format echoBehavior
      (.obj [("code", .str "print(1)"), ("timeout", .num 400)])).2 = [] :=
  (claim5_legacy_timeout_validation echoBehavior
      [("code", .str "print(1)"), ("timeout", .num 400)] "print(1)" rfl).1
    (.num 400) rfl
    (by rintro ⟨n, hn, h1, h300⟩
        simp only [pyIntValue, Option.some.injEq] at hn
        omega)

/-- Claim C9: a body carrying both a top-level `data` key and a
top-level `code` key is dispatched to the batch handler, and the batch
handler's outcome depends only on the `data` value — the `code` field is
ignored. -/
theorem claim9_batch_mode_precedence (b : Behavior)
    (kvs : List (String × Json))
    (hd : kvs.any (fun p => p.1 == "data") = true)
    (hc : kvs.any (fun p => p.1 == "code") = true) :
    execute_code b (some (.obj kvs)) = handle_snowflake_format b (.obj kvs) ∧
    (∀ kvs2 : List (String × Json),
      List.lookup "data" kvs2 = List.lookup "data" kvs →
      handle_snowflake_format b (.obj kvs2) =
        handle_snowflake_format b (.obj kvs)) := by
  constructor
  · have hne : kvs.isEmpty = false := by
      cases kvs with
      | nil => simp at hd
      | cons a l => rfl
    simp [execute_code, pyTruthy, hne, jsonContainsKey, hd]
  · intro kvs2 h2
    simp [handle_snowflake_format, h2]

/-- C9 at a concrete body holding both keys: the request is processed
as a batch and the code field plays no role. -/
theorem claim9_batch_mode_precedence_witness :
    execute_code echoBehavior
      (some (.obj [("data", .arr [.arr [.num 0, .str "print(1)"]]),
        ("code", .str "print(2)")])) =
    handle_snowflake_format echoBehavior
      (.obj [("data", .arr [.arr [.num 0, .str "print(1)"]]),
        ("code", .str "print(2)")]) :=
  (claim9_batch_mode_precedence echoBehavior
    [("data", .arr [.arr [.num 0, .str "print(1)"]]),
      ("code", .str "print(2)")] (by decide) (by decide)).1
